import Mathlib

/-!
Verification development for the COVID-19 statistics pipeline
(`src/analyze.py`, `src/process_data.py`, `src/generate_html.py`,
`src/generate_report.py`, `main.py`).

The pandas tables are embedded as Lean lists of records; float arithmetic is
embedded as exact rational arithmetic.  The float NaN that pandas produces for
the mean or variance of an empty series is modelled as `Option.none`.  The two
irrational library primitives the source calls, `np.sqrt` and
`scipy.stats.norm.cdf`, are taken as function parameters `sq` and `cdf`: no
claim below depends on their values, only on where the source calls them.
A Python `ZeroDivisionError` (raised by `int / int` division with a zero
denominator, as in the source's `1/n1`) is modelled in the `Except` monad;
numpy/pandas float divisions never raise in the source (they produce inf/NaN
with a warning) and the source guards each of them, so they are embedded as
guarded total operations.
-/

namespace CovidStats

/-- Python runtime errors raised by the embedded code. -/
inductive PyError where
  | zeroDivisionError
  | typeError (msg : String)
deriving DecidableEq

/-- Python integer true division `a / n` for an `int` denominator, as in the
source's `1/n1`: raises `ZeroDivisionError` when the denominator is zero. -/
def pydiv (a : ℚ) (n : ℕ) : Except PyError ℚ :=
  if n = 0 then .error .zeroDivisionError else .ok (a / n)

/-- pandas `Series.mean`: arithmetic mean of the column, float NaN (modelled
as `none`) on an empty series. -/
def pdMean : List ℚ → Option ℚ
  | [] => none
  | xs => some (xs.sum / xs.length)

/-- pandas `Series.var` (sample variance, `ddof = 1`): NaN (modelled as
`none`) when the series has fewer than two entries. -/
def pdVar (xs : List ℚ) : Option ℚ :=
  if xs.length < 2 then none
  else
    some (((xs.map fun x => (x - xs.sum / xs.length) ^ 2).sum) / ((xs.length : ℚ) - 1))

/-- NaN-propagating subtraction on possibly-NaN floats. -/
def optSub (a b : Option ℚ) : Option ℚ :=
  match a, b with
  | some x, some y => some (x - y)
  | _, _ => none

/-- One row of the merged analysis table handed to the estimators: the
datetime index (a day count since 1970-01-01), the binary infection
indicator column `I` and the `vaccination_rate` column.  The estimator
functions are embedded at their default column arguments
(`infection_col="I"`, `vaccination_col="vaccination_rate"`), which is how
every caller in the repository invokes them. -/
structure Record where
  date : ℤ
  I : ℚ
  vaccination_rate : ℚ
deriving DecidableEq

/-- Result dictionary of `calculate_bernoulli_parameters`
(src/analyze.py lines 11-38). -/
structure BernoulliResults where
  p_I : Option ℚ
  p_V : Option ℚ
  var_I : Option ℚ
  var_V : Option ℚ
  std_I : Option ℚ
  std_V : Option ℚ
deriving DecidableEq

/-- `calculate_bernoulli_parameters` (src/analyze.py lines 11-38):
means of the `I` and `vaccination_rate` columns and the `p(1-p)` moments.
`sq` stands for `np.sqrt`. -/
def calculate_bernoulli_parameters (sq : ℚ → ℚ) (df : List Record) :
    BernoulliResults :=
  let p_I := pdMean (df.map Record.I)
  let p_V := pdMean (df.map Record.vaccination_rate)
  let var_I := p_I.map fun p => p * (1 - p)
  let var_V := p_V.map fun p => p * (1 - p)
  { p_I := p_I, p_V := p_V, var_I := var_I, var_V := var_V,
    std_I := var_I.map sq, std_V := var_V.map sq }

/-- Result dictionary of `calculate_conditional_probabilities`
(src/analyze.py lines 41-79). -/
structure CondResults where
  p_I_high : Option ℚ
  p_I_low : Option ℚ
  difference : Option ℚ
  n_high : ℕ
  n_low : ℕ
  se_high : ℚ
  se_low : ℚ
  threshold : ℚ
deriving DecidableEq

/-- `calculate_conditional_probabilities` (src/analyze.py lines 41-79):
partition by `vaccination_rate >= threshold` versus `< threshold`, mean of
`I` in each partition, and guarded standard errors.  Under the `n > 0`
guards the partition is non-empty, so its mean is never NaN and the
`getD 0` defaults never fire. -/
def calculate_conditional_probabilities (sq : ℚ → ℚ) (df : List Record)
    (threshold : ℚ) : CondResults :=
  let high_vax := df.filter fun r => decide (threshold ≤ r.vaccination_rate)
  let low_vax := df.filter fun r => decide (r.vaccination_rate < threshold)
  let p_I_high := pdMean (high_vax.map Record.I)
  let p_I_low := pdMean (low_vax.map Record.I)
  let n_high := high_vax.length
  let n_low := low_vax.length
  let se_high :=
    if 0 < n_high then sq (p_I_high.getD 0 * (1 - p_I_high.getD 0) / n_high) else 0
  let se_low :=
    if 0 < n_low then sq (p_I_low.getD 0 * (1 - p_I_low.getD 0) / n_low) else 0
  { p_I_high := p_I_high, p_I_low := p_I_low,
    difference := optSub p_I_high p_I_low,
    n_high := n_high, n_low := n_low,
    se_high := se_high, se_low := se_low, threshold := threshold }

/-- A boolean as carried at Python runtime: `pybool` is a genuine Python
`bool`, `npbool` a numpy `np.bool_` (produced by comparing a numpy float).
The distinction matters only at serialization time: `json.dump` writes a
Python `bool` as a JSON boolean but cannot encode `np.bool_` and falls back
to `default=str`. -/
inductive PyBool where
  | pybool (b : Bool)
  | npbool (b : Bool)
deriving DecidableEq

/-- Result dictionary of `perform_statistical_tests`
(src/analyze.py lines 135-180).  The `significant` entry is the comparison
`p_value < 0.05`, whose runtime type depends on the branch that produced
`p_value` (see `testsOnPartitions`). -/
structure TestResults where
  test_type : String
  n_high : ℕ
  n_low : ℕ
  p_high : ℚ
  p_low : ℚ
  difference : ℚ
  z_statistic : ℚ
  p_value : ℚ
  significant : PyBool
deriving DecidableEq

/-- The `test_type` string of `perform_statistical_tests`. -/
def testTypeMsg : String := "Two-sample proportion test (z-test)"

/-- Body of `perform_statistical_tests` after the two partition lines
(src/analyze.py lines 151-180), as a function of the two partitions.  The
pooled standard error is
`np.sqrt(p_pooled * (1 - p_pooled) * (1/n1 + 1/n2))`, computed only under
the `(n1 + n2) > 0` guard; the terms `1/n1` and `1/n2` are Python `int`
divisions and raise `ZeroDivisionError` when the corresponding partition is
empty.  `sq` stands for `np.sqrt`, `cdf` for `scipy.stats.norm.cdf`. -/
def testsOnPartitions (sq cdf : ℚ → ℚ) (high_vax low_vax : List Record) :
    Except PyError TestResults := do
  let n1 := high_vax.length
  let n2 := low_vax.length
  let x1 := (high_vax.map Record.I).sum
  let x2 := (low_vax.map Record.I).sum
  let p1 := if 0 < n1 then x1 / n1 else 0
  let p2 := if 0 < n2 then x2 / n2 else 0
  let p_pooled := if 0 < n1 + n2 then (x1 + x2) / ((n1 : ℚ) + n2) else 0
  let se ←
    if 0 < n1 + n2 then do
      let i1 ← pydiv 1 n1
      let i2 ← pydiv 1 n2
      pure (sq (p_pooled * (1 - p_pooled) * (i1 + i2)))
    else pure 0
  let z_stat := if 0 < se then (p1 - p2) / se else 0
  let p_value := if 0 < se then 2 * (1 - cdf |z_stat|) else 1
  -- `p_value < 0.05` is an `np.bool_` when `p_value` is the numpy float
  -- `2 * (1 - stats.norm.cdf(...))` (the `se > 0` branch) and a genuine
  -- Python `bool` when `p_value` is the literal `1.0` (the degenerate
  -- branch).
  let significant := decide (p_value < 1 / 20)
  return { test_type := testTypeMsg,
           n_high := n1, n_low := n2, p_high := p1, p_low := p2,
           difference := p1 - p2, z_statistic := z_stat, p_value := p_value,
           significant := if 0 < se then PyBool.npbool significant
                          else PyBool.pybool significant }

/-- `perform_statistical_tests` (src/analyze.py lines 135-180): partition by
`vaccination_rate >= threshold` versus `< threshold` (lines 148-149), then
run the two-proportion z-test body on the partitions. -/
def perform_statistical_tests (sq cdf : ℚ → ℚ) (df : List Record)
    (threshold : ℚ) : Except PyError TestResults :=
  testsOnPartitions sq cdf
    (df.filter fun r => decide (threshold ≤ r.vaccination_rate))
    (df.filter fun r => decide (r.vaccination_rate < threshold))

/-! ### Weekly and monthly resampling (pandas `resample`) -/

/-- Label of the pandas `resample("W")` bin containing day `d`: the Sunday on
or after `d` (day 3 mod 7 is a Sunday, since 1970-01-01 was a Thursday). -/
def weekLabel (d : ℤ) : ℤ := d + (3 - d) % 7

/-- Proleptic-Gregorian date from a day count since 1970-01-01
(the standard civil-from-days computation), used for the month-end bins of
`resample("ME")`. -/
def civilFromDays (z0 : ℤ) : ℤ × ℤ × ℤ :=
  let z := z0 + 719468
  let era := z.fdiv 146097
  let doe := z - era * 146097
  let yoe := (doe - doe / 1460 + doe / 36524 - doe / 146096) / 365
  let y := yoe + era * 400
  let doy := doe - (365 * yoe + yoe / 4 - yoe / 100)
  let mp := (5 * doy + 2) / 153
  let d := doy - (153 * mp + 2) / 5 + 1
  let m := if mp < 10 then mp + 3 else mp - 9
  (if m ≤ 2 then y + 1 else y, m, d)

/-- Day count since 1970-01-01 of a proleptic-Gregorian date. -/
def daysFromCivil (y0 m d : ℤ) : ℤ :=
  let y := if m ≤ 2 then y0 - 1 else y0
  let era := y.fdiv 400
  let yoe := y - era * 400
  let mp := if 2 < m then m - 3 else m + 9
  let doy := (153 * mp + 2) / 5 + d - 1
  let doe := yoe * 365 + yoe / 4 - yoe / 100 + doy
  era * 146097 + doe - 719468

/-- Label of the pandas `resample("ME")` bin containing day `d`: the last day
of the month of `d`. -/
def monthEndLabel (d : ℤ) : ℤ :=
  let c := civilFromDays d
  let ny := if c.2.1 = 12 then c.1 + 1 else c.1
  let nm := if c.2.1 = 12 then 1 else c.2.1 + 1
  daysFromCivil ny nm 1 - 1

/-- The pandas offset alias `"W"` for weekly resampling. -/
def periodW : String := "W"

/-- The pandas offset alias `"M"` (legacy monthly). -/
def periodM : String := "M"

/-- The pandas offset alias `"ME"` for month-end resampling. -/
def periodME : String := "ME"

/-- Bin label for the offset aliases the repository uses (`"W"`, `"M"`,
`"ME"`).  The source's final `else` branch resamples by whatever alias string
was passed; only the weekly and monthly aliases occur in the repository, so
any other string is modelled like the weekly default used elsewhere in that
branch. -/
def resampleLabel (period : String) (d : ℤ) : ℤ :=
  if period = periodW then weekLabel d
  else if period = periodM ∨ period = periodME then monthEndLabel d
  else weekLabel d

/-- Consecutive bin labels from `cur` up to `hi`; the label of the day after
a bin's right edge is the next bin's label.  `fuel` bounds the recursion (one
day per unit is always enough). -/
def gridAux (label : ℤ → ℤ) : ℕ → ℤ → ℤ → List ℤ
  | 0, _, _ => []
  | fuel + 1, cur, hi =>
    if cur ≤ hi then cur :: gridAux label fuel (label (cur + 1)) hi else []

/-- `df[col].resample(period).sum()`: the complete grid of bins from the first
to the last observed date (bins with no observations sum to zero), with each
bin's sum of the `I` column. -/
def resampleSumI (period : String) (df : List Record) : List (ℤ × ℚ) :=
  let label := resampleLabel period
  match (df.map Record.date).min?, (df.map Record.date).max? with
  | some lo, some hi =>
    (gridAux label ((label hi - label lo).toNat + 1) (label lo) (label hi)).map
      fun w => (w, ((df.filter fun r => decide (label r.date = w)).map Record.I).sum)
  | _, _ => []

/-- Result dictionary of `calculate_binomial_parameters`
(src/analyze.py lines 82-132). -/
structure BinomResults where
  period : String
  n_trials : ℕ
  p_I : Option ℚ
  expected_mean : Option ℚ
  expected_variance : Option ℚ
  actual_mean : Option ℚ
  actual_variance : Option ℚ
  mean_difference : Option ℚ
  variance_difference : Option ℚ
deriving DecidableEq

/-- `calculate_binomial_parameters` (src/analyze.py lines 82-132): Binomial
expected mean/variance from the overall `p_I` against the mean/variance of
the resampled sums of `I`.  Returns the results dictionary together with the
resampled `actual` series, as the source does. -/
def calculate_binomial_parameters (df : List Record) (period : String) :
    BinomResults × List (ℤ × ℚ) :=
  let p_I := pdMean (df.map Record.I)
  let n_trials : ℕ :=
    if period = periodW then 7
    else if period = periodM ∨ period = periodME then 30
    else 7
  let E_period := p_I.map fun p => (n_trials : ℚ) * p
  let Var_period := p_I.map fun p => (n_trials : ℚ) * p * (1 - p)
  let actual := resampleSumI period df
  let actual_mean := pdMean (actual.map Prod.snd)
  let actual_var := pdVar (actual.map Prod.snd)
  ({ period := period, n_trials := n_trials, p_I := p_I,
     expected_mean := E_period, expected_variance := Var_period,
     actual_mean := actual_mean, actual_variance := actual_var,
     mean_difference := optSub actual_mean E_period,
     variance_difference := optSub actual_var Var_period }, actual)

/-! ### `run_complete_analysis` (src/analyze.py lines 183-238) -/

/-- The dictionary returned by `run_complete_analysis`
(src/analyze.py lines 230-236). -/
structure AnalysisResults where
  bernoulli : BernoulliResults
  conditional : CondResults
  binomial_weekly : BinomResults
  statistical_tests : TestResults
  weekly_actual : List (ℤ × ℚ)
deriving DecidableEq

/-- The keys of the dictionary literal that `run_complete_analysis` returns
(src/analyze.py lines 230-236), in source order. -/
def analysisResultKeys : List String :=
  ["bernoulli", "conditional", "binomial_weekly", "statistical_tests",
   "weekly_actual"]

/-- `run_complete_analysis` (src/analyze.py lines 183-238): runs the four
estimators at their default threshold (0.5) and weekly period and packages
the outputs.  An exception raised by `perform_statistical_tests` propagates
(in the source it is caught only by `main`'s top-level handler). -/
def run_complete_analysis (sq cdf : ℚ → ℚ) (df : List Record) :
    Except PyError AnalysisResults := do
  let bernoulli := calculate_bernoulli_parameters sq df
  let conditional := calculate_conditional_probabilities sq df (1 / 2)
  let bw := calculate_binomial_parameters df periodW
  let test_results ← perform_statistical_tests sq cdf df (1 / 2)
  return { bernoulli := bernoulli, conditional := conditional,
           binomial_weekly := bw.1, statistical_tests := test_results,
           weekly_actual := bw.2 }

/-! ### Data cleaning and merging (src/process_data.py) -/

/-- A raw OWID row after country filtering: date plus the possibly-missing
(NaN, modelled as `none`) numeric columns that `clean_owid_data` touches. -/
structure OwidRawRow where
  date : ℤ
  new_cases : Option ℚ
  people_vaccinated : Option ℚ
  population : Option ℚ
deriving DecidableEq

/-- A row of the cleaned OWID table produced by `clean_owid_data`. -/
structure OwidCleanRow where
  date : ℤ
  new_cases : ℚ
  people_vaccinated : Option ℚ
  vaccination_rate : ℚ
  I : ℚ
deriving DecidableEq

/-- pandas `Series.ffill`: carry the last non-missing value forward;
leading missing values stay missing. -/
def ffillAux : Option ℚ → List (Option ℚ) → List (Option ℚ)
  | _, [] => []
  | last, none :: rest => last :: ffillAux last rest
  | _, some x :: rest => some x :: ffillAux (some x) rest

/-- Element-wise column division `people_vaccinated / population`.  A missing
operand gives a missing (NaN) result; a zero denominator, which in the source
yields a float infinity, does not occur in any claim and is modelled as
missing as well. -/
def colDiv (a b : Option ℚ) : Option ℚ :=
  match a, b with
  | some x, some y => if y = 0 then none else some (x / y)
  | _, _ => none

/-- `clean_owid_data` (src/process_data.py lines 49-81): forward-fill
`people_vaccinated`, fill missing `new_cases` with 0, compute
`vaccination_rate = people_vaccinated / population` (missing ratios filled
with 0), derive `I = (new_cases > 0)`, and index by date.  The function
operates row-wise on the rows it is given: it does not insert rows for
missing calendar days. -/
def clean_owid_data (rows : List OwidRawRow) : List OwidCleanRow :=
  List.zipWith
    (fun r pv =>
      let nc := r.new_cases.getD 0
      { date := r.date, new_cases := nc, people_vaccinated := pv,
        vaccination_rate := (colDiv pv r.population).getD 0,
        I := if 0 < nc then 1 else 0 })
    rows (ffillAux none (rows.map OwidRawRow.people_vaccinated))

/-- A raw WHO row after country filtering (columns already renamed to
`date` / `new_cases`). -/
structure WhoRawRow where
  date : ℤ
  new_cases : Option ℚ
deriving DecidableEq

/-- A row of the cleaned WHO table produced by `clean_who_data`. -/
structure WhoCleanRow where
  date : ℤ
  new_cases : Option ℚ
  I : ℚ
deriving DecidableEq

/-- `clean_who_data` (src/process_data.py lines 84-111): derive
`I = (new_cases > 0)` (a missing count compares false, giving `I = 0`) and
index by date; `new_cases` is not filled. -/
def clean_who_data (rows : List WhoRawRow) : List WhoCleanRow :=
  rows.map fun r =>
    { date := r.date, new_cases := r.new_cases,
      I := match r.new_cases with
           | some x => if 0 < x then 1 else 0
           | none => 0 }

/-- A row of the merged table produced by `merge_datasets`: because both
inputs carry an `I` column, the merge suffixes produce `I_owid` and `I_who`,
and the source then sets the canonical `I` column. -/
structure MergedRow where
  date : ℤ
  vaccination_rate : ℚ
  I_owid : ℚ
  new_cases : ℚ
  people_vaccinated : Option ℚ
  I_who : ℚ
  I : ℚ
deriving DecidableEq

/-- `merge_datasets` (src/process_data.py lines 200-238): inner join of the
cleaned OWID columns with the WHO `date`/`I` columns on `date` (pandas keeps
left-frame order and, per left row, right matches in right order), then the
canonical column is set by `merged["I"] = merged["I_owid"]` (the `I_owid`
branch is taken because the suffixed column exists). -/
def merge_datasets (owid : List OwidCleanRow) (who : List WhoCleanRow) :
    List MergedRow :=
  owid.flatMap fun o =>
    (who.filter fun w => decide (w.date = o.date)).map fun w =>
      { date := o.date, vaccination_rate := o.vaccination_rate,
        I_owid := o.I, new_cases := o.new_cases,
        people_vaccinated := o.people_vaccinated, I_who := w.I,
        I := o.I }

/-- Projection of a cleaned OWID row onto the columns the estimators read. -/
def toRecord (c : OwidCleanRow) : Record :=
  { date := c.date, I := c.I, vaccination_rate := c.vaccination_rate }

/-! ### Cumulative-to-incremental conversion (src/generate_html.py lines 60-72) -/

/-- pandas `Series.diff`: NaN (`none`) in the first position, day-over-day
differences afterwards. -/
def pdDiff : List ℚ → List (Option ℚ)
  | [] => []
  | x :: rest => none :: List.zipWith (fun a b => some (a - b)) rest (x :: rest)

/-- The NYT `new_cases` derivation in `prepare_chart_data`
(src/generate_html.py line 67):
`cases.diff().fillna(cases.iloc[0]).clip(lower=0)`.  On an empty series the
source's `iloc[0]` would raise `IndexError`; the claims only exercise
non-empty series. -/
def nytNewCases : List ℚ → List ℚ
  | [] => []
  | x :: rest =>
    ((pdDiff (x :: rest)).map fun o => o.getD x).map fun v => max v 0

/-- Modelled from the spec: the increments as §4.1 describes them — the first
day's increment is its raw cumulative value, later increments are
day-over-day differences, and every negative increment is clamped to zero.
Compared against `nytNewCases`, the definition taken from the source. -/
def specIncrements : List ℚ → List ℚ
  | [] => []
  | x :: rest =>
    max x 0 :: List.zipWith (fun prev cur => max (cur - prev) 0) (x :: rest) rest

/-! ### Python call binding for `main` → `process_all_data`
(src/main.py lines 43-45, src/process_data.py line 241) -/

/-- A formal parameter of a Python function: its name and whether it has a
default value. -/
structure Param where
  name : String
  hasDefault : Bool
deriving DecidableEq

/-- The signature of `process_all_data(owid_df, who_df, country="United
States", save_processed=True)` (src/process_data.py line 241). -/
def processAllDataParams : List Param :=
  [⟨"owid_df", false⟩, ⟨"who_df", false⟩, ⟨"country", true⟩,
   ⟨"save_processed", true⟩]

/-- Message of the `TypeError` CPython raises when a keyword argument also
receives a positional value. -/
def multipleValuesMsg (k : String) : String :=
  "got multiple values for argument " ++ k

/-- Message of the `TypeError` for an unknown keyword argument. -/
def unexpectedKeywordMsg (k : String) : String :=
  "got an unexpected keyword argument " ++ k

/-- Message of the `TypeError` for a parameter left unbound. -/
def missingArgumentMsg (k : String) : String :=
  "missing required argument " ++ k

/-- Message of the `TypeError` for an overlong positional argument list. -/
def tooManyPositionalMsg : String := "too many positional arguments"

/-- Python's binding of a call with `npos` positional arguments and the
keyword-argument names `kws` against a parameter list: positional arguments
bind the leading parameters; a keyword that names an already positionally
bound parameter raises `TypeError` (multiple values); unknown keywords and
unbound default-less parameters also raise `TypeError`. -/
def bindCall (params : List Param) (npos : ℕ) (kws : List String) :
    Except PyError Unit :=
  if params.length < npos then .error (.typeError tooManyPositionalMsg)
  else
    let posNames := (params.take npos).map Param.name
    match kws.find? (fun k => posNames.contains k) with
    | some k => .error (.typeError (multipleValuesMsg k))
    | none =>
      match kws.find? (fun k => !(params.map Param.name).contains k) with
      | some k => .error (.typeError (unexpectedKeywordMsg k))
      | none =>
        match (params.drop npos).find?
            (fun p => !p.hasDefault && !kws.contains p.name) with
        | some p => .error (.typeError (missingArgumentMsg p.name))
        | none => .ok ()

/-- The stage labels of `main` (src/main.py): extraction, processing,
analysis, dashboard. -/
def analysisStageMsg : String := "statistical analysis stage reached"

/-- The control flow of `main` (src/main.py lines 32-63) from the processing
call onwards: `process_all_data` is called with the three extracted tables as
positional arguments plus the keywords `country` and `save_processed`
(src/main.py lines 43-45); if that call raises, the top-level handler catches
the exception and the statistical-analysis stage is never reached. -/
def mainPipeline : Except PyError String :=
  match bindCall processAllDataParams 3 ["country", "save_processed"] with
  | .error e => .error e
  | .ok _ => .ok analysisStageMsg

/-! ### JSON report (src/generate_report.py lines 132-156)

`generate_json_report` replaces the `weekly_actual` series by parallel
`index`/`values` arrays (dates rendered by `strftime`, abstracted as the
formatting parameter `fmt`) and hands the dictionary to `json.dump`.  The
JSON text itself is produced and parsed by the standard library; the value
tree it transports is modelled by the `Json` type.  Python's `json` writes
the float NaN as a bare `NaN` token and reads it back as NaN, modelled by the
`Json.nan` constructor.  The `significant` entry is serialized according to
its runtime type: a genuine Python `bool` (the degenerate z-test branch)
becomes a JSON boolean, while the numpy `np.bool_` of the normal branch
cannot be encoded by `json.dump` and falls back to `default=str`, producing
the strings `"True"`/`"False"`. -/

/-- The JSON value tree written by `json.dump` and read back by
`json.load`. -/
inductive Json where
  | null
  | nan
  | str (s : String)
  | num (q : ℚ)
  | jbool (b : Bool)
  | arr (xs : List Json)
  | obj (fields : List (String × Json))

/-- A possibly-NaN float as a JSON value. -/
def optNum : Option ℚ → Json
  | some q => .num q
  | none => .nan

/-- Python `str` of a boolean, as produced by `json.dump`'s `default=str`
fallback on the numpy boolean. -/
def pyBoolStr (b : Bool) : String := if b then "True" else "False"

/-- `json.dump` of a runtime boolean: a Python `bool` is encoded as a JSON
boolean; an `np.bool_` is not JSON-encodable and goes through the
`default=str` fallback. -/
def encodePyBool : PyBool → Json
  | PyBool.pybool b => .jbool b
  | PyBool.npbool b => .str (pyBoolStr b)

/-- JSON encoding of the `bernoulli` sub-dictionary. -/
def encodeBernoulli (b : BernoulliResults) : Json :=
  .obj [("p_I", optNum b.p_I), ("p_V", optNum b.p_V),
        ("var_I", optNum b.var_I), ("var_V", optNum b.var_V),
        ("std_I", optNum b.std_I), ("std_V", optNum b.std_V)]

/-- JSON encoding of the `conditional` sub-dictionary. -/
def encodeConditional (c : CondResults) : Json :=
  .obj [("p_I_high", optNum c.p_I_high), ("p_I_low", optNum c.p_I_low),
        ("difference", optNum c.difference), ("n_high", .num c.n_high),
        ("n_low", .num c.n_low), ("se_high", .num c.se_high),
        ("se_low", .num c.se_low), ("threshold", .num c.threshold)]

/-- JSON encoding of the `binomial_weekly` sub-dictionary. -/
def encodeBinomial (b : BinomResults) : Json :=
  .obj [("period", .str b.period), ("n_trials", .num b.n_trials),
        ("p_I", optNum b.p_I), ("expected_mean", optNum b.expected_mean),
        ("expected_variance", optNum b.expected_variance),
        ("actual_mean", optNum b.actual_mean),
        ("actual_variance", optNum b.actual_variance),
        ("mean_difference", optNum b.mean_difference),
        ("variance_difference", optNum b.variance_difference)]

/-- JSON encoding of the `statistical_tests` sub-dictionary. -/
def encodeTests (t : TestResults) : Json :=
  .obj [("test_type", .str t.test_type), ("n_high", .num t.n_high),
        ("n_low", .num t.n_low), ("p_high", .num t.p_high),
        ("p_low", .num t.p_low), ("difference", .num t.difference),
        ("z_statistic", .num t.z_statistic), ("p_value", .num t.p_value),
        ("significant", encodePyBool t.significant)]

/-- `generate_json_report` (src/generate_report.py lines 132-156): the
`weekly_actual` series becomes an object of parallel `index` (dates as
strings via `fmt`, standing for `strftime` of the ISO format) and `values`
arrays; every other entry passes through `json.dump` structurally. -/
def generate_json_report (fmt : ℤ → String) (r : AnalysisResults) : Json :=
  .obj [("bernoulli", encodeBernoulli r.bernoulli),
        ("conditional", encodeConditional r.conditional),
        ("binomial_weekly", encodeBinomial r.binomial_weekly),
        ("statistical_tests", encodeTests r.statistical_tests),
        ("weekly_actual",
          .obj [("index", .arr (r.weekly_actual.map fun p => .str (fmt p.1))),
                ("values", .arr (r.weekly_actual.map fun p => .num p.2))])]

/-- Field access on a parsed JSON object, as a reader performs it by key. -/
def jGet : Json → String → Option Json
  | .obj fields, key => lookupStr fields key
  | _, _ => none
where
  /-- First binding of `key` in an association list. -/
  lookupStr : List (String × Json) → String → Option Json
  | [], _ => none
  | (k, v) :: rest, key => if k = key then some v else lookupStr rest key

/-- Read back a float that may have been written as the NaN token. -/
def asOptNum : Json → Option (Option ℚ)
  | .num q => some (some q)
  | .nan => some none
  | _ => none

/-- Read back a number. -/
def asNum : Json → Option ℚ
  | .num q => some q
  | _ => none

/-- Read back a string. -/
def asStr : Json → Option String
  | .str s => some s
  | _ => none

/-- What a reader finds in the `significant` slot: a boolean when the
serializer wrote a JSON boolean, a string when it wrote the `default=str`
fallback. -/
inductive SigReadBack where
  | asBool (b : Bool)
  | asStr (s : String)
deriving DecidableEq

/-- Read back the `significant` slot (boolean or fallback string). -/
def asSig : Json → Option SigReadBack
  | .jbool b => some (SigReadBack.asBool b)
  | .str s => some (SigReadBack.asStr s)
  | _ => none

/-- The value a reader gets back for each runtime boolean: the Python
`bool` round-trips, the numpy boolean comes back as a string. -/
def sigRead : PyBool → SigReadBack
  | PyBool.pybool b => SigReadBack.asBool b
  | PyBool.npbool b => SigReadBack.asStr (pyBoolStr b)

/-- Read back a list of strings. -/
def strList : List Json → Option (List String)
  | [] => some []
  | j :: rest =>
    match asStr j, strList rest with
    | some s, some ss => some (s :: ss)
    | _, _ => none

/-- Read back a list of numbers. -/
def numList : List Json → Option (List ℚ)
  | [] => some []
  | j :: rest =>
    match asNum j, numList rest with
    | some q, some qs => some (q :: qs)
    | _, _ => none

/-- Read back a string array. -/
def asStrArr : Json → Option (List String)
  | .arr xs => strList xs
  | _ => none

/-- Read back a number array. -/
def asNumArr : Json → Option (List ℚ)
  | .arr xs => numList xs
  | _ => none

/-- The `conditional` sub-dictionary as read back from JSON: the integer
sample sizes come back as JSON numbers. -/
structure CondReadBack where
  p_I_high : Option ℚ
  p_I_low : Option ℚ
  difference : Option ℚ
  n_high : ℚ
  n_low : ℚ
  se_high : ℚ
  se_low : ℚ
  threshold : ℚ
deriving DecidableEq

/-- The `binomial_weekly` sub-dictionary as read back from JSON. -/
structure BinomReadBack where
  period : String
  n_trials : ℚ
  p_I : Option ℚ
  expected_mean : Option ℚ
  expected_variance : Option ℚ
  actual_mean : Option ℚ
  actual_variance : Option ℚ
  mean_difference : Option ℚ
  variance_difference : Option ℚ
deriving DecidableEq

/-- The `statistical_tests` sub-dictionary as read back from JSON; the
`significant` flag comes back as a boolean or as the `default=str` string,
depending on what the serializer wrote. -/
structure TestsReadBack where
  test_type : String
  n_high : ℚ
  n_low : ℚ
  p_high : ℚ
  p_low : ℚ
  difference : ℚ
  z_statistic : ℚ
  p_value : ℚ
  significant : SigReadBack
deriving DecidableEq

/-- The whole report as read back from JSON. -/
structure ReportReadBack where
  bernoulli : BernoulliResults
  conditional : CondReadBack
  binomial_weekly : BinomReadBack
  statistical_tests : TestsReadBack
  weekly_index : List String
  weekly_values : List ℚ
deriving DecidableEq

/-- Read back the `bernoulli` sub-dictionary. -/
def decodeBernoulli (j : Json) : Option BernoulliResults :=
  match jGet j "p_I", jGet j "p_V", jGet j "var_I", jGet j "var_V",
        jGet j "std_I", jGet j "std_V" with
  | some a1, some a2, some a3, some a4, some a5, some a6 =>
    match asOptNum a1, asOptNum a2, asOptNum a3, asOptNum a4, asOptNum a5,
          asOptNum a6 with
    | some p_I, some p_V, some var_I, some var_V, some std_I, some std_V =>
      some { p_I := p_I, p_V := p_V, var_I := var_I, var_V := var_V,
             std_I := std_I, std_V := std_V }
    | _, _, _, _, _, _ => none
  | _, _, _, _, _, _ => none

/-- Read back the `conditional` sub-dictionary. -/
def decodeConditional (j : Json) : Option CondReadBack :=
  match jGet j "p_I_high", jGet j "p_I_low", jGet j "difference",
        jGet j "n_high", jGet j "n_low", jGet j "se_high",
        jGet j "se_low", jGet j "threshold" with
  | some a1, some a2, some a3, some a4, some a5, some a6, some a7, some a8 =>
    match asOptNum a1, asOptNum a2, asOptNum a3, asNum a4, asNum a5,
          asNum a6, asNum a7, asNum a8 with
    | some p_I_high, some p_I_low, some difference, some n_high, some n_low,
      some se_high, some se_low, some threshold =>
      some { p_I_high := p_I_high, p_I_low := p_I_low,
             difference := difference, n_high := n_high, n_low := n_low,
             se_high := se_high, se_low := se_low, threshold := threshold }
    | _, _, _, _, _, _, _, _ => none
  | _, _, _, _, _, _, _, _ => none

/-- Read back the `binomial_weekly` sub-dictionary. -/
def decodeBinomial (j : Json) : Option BinomReadBack :=
  match jGet j "period", jGet j "n_trials", jGet j "p_I",
        jGet j "expected_mean", jGet j "expected_variance",
        jGet j "actual_mean", jGet j "actual_variance",
        jGet j "mean_difference", jGet j "variance_difference" with
  | some a1, some a2, some a3, some a4, some a5, some a6, some a7, some a8,
    some a9 =>
    match asStr a1, asNum a2, asOptNum a3, asOptNum a4, asOptNum a5,
          asOptNum a6, asOptNum a7, asOptNum a8, asOptNum a9 with
    | some period, some n_trials, some p_I, some expected_mean,
      some expected_variance, some actual_mean, some actual_variance,
      some mean_difference, some variance_difference =>
      some { period := period, n_trials := n_trials, p_I := p_I,
             expected_mean := expected_mean,
             expected_variance := expected_variance,
             actual_mean := actual_mean, actual_variance := actual_variance,
             mean_difference := mean_difference,
             variance_difference := variance_difference }
    | _, _, _, _, _, _, _, _, _ => none
  | _, _, _, _, _, _, _, _, _ => none

/-- Read back the `statistical_tests` sub-dictionary. -/
def decodeTests (j : Json) : Option TestsReadBack :=
  match jGet j "test_type", jGet j "n_high", jGet j "n_low",
        jGet j "p_high", jGet j "p_low", jGet j "difference",
        jGet j "z_statistic", jGet j "p_value", jGet j "significant" with
  | some a1, some a2, some a3, some a4, some a5, some a6, some a7, some a8,
    some a9 =>
    match asStr a1, asNum a2, asNum a3, asNum a4, asNum a5, asNum a6,
          asNum a7, asNum a8, asSig a9 with
    | some test_type, some n_high, some n_low, some p_high, some p_low,
      some difference, some z_statistic, some p_value, some significant =>
      some { test_type := test_type, n_high := n_high, n_low := n_low,
             p_high := p_high, p_low := p_low, difference := difference,
             z_statistic := z_statistic, p_value := p_value,
             significant := significant }
    | _, _, _, _, _, _, _, _, _ => none
  | _, _, _, _, _, _, _, _, _ => none

/-- Read the serialized report back from its JSON value tree. -/
def decodeReport (j : Json) : Option ReportReadBack :=
  match jGet j "bernoulli", jGet j "conditional", jGet j "binomial_weekly",
        jGet j "statistical_tests", jGet j "weekly_actual" with
  | some jb, some jc, some jbw, some jt, some jw =>
    match decodeBernoulli jb, decodeConditional jc, decodeBinomial jbw,
          decodeTests jt, jGet jw "index", jGet jw "values" with
    | some bernoulli, some conditional, some binomial_weekly,
      some statistical_tests, some ji, some jv =>
      match asStrArr ji, asNumArr jv with
      | some weekly_index, some weekly_values =>
        some { bernoulli := bernoulli, conditional := conditional,
               binomial_weekly := binomial_weekly,
               statistical_tests := statistical_tests,
               weekly_index := weekly_index, weekly_values := weekly_values }
      | _, _ => none
    | _, _, _, _, _, _ => none
  | _, _, _, _, _ => none

/-- A concrete analysis result whose z-test took the normal branch
(`se > 0`, both partitions non-empty): its `significant` entry is the numpy
boolean `np.bool_`, which `json.dump` stringifies. -/
def exNormResults : AnalysisResults :=
  { bernoulli := ⟨none, none, none, none, none, none⟩,
    conditional := ⟨none, none, none, 1, 1, 0, 0, 0⟩,
    binomial_weekly := ⟨periodW, 7, none, none, none, none, none, none,
      none⟩,
    statistical_tests :=
      ⟨testTypeMsg, 1, 1, 1, 0, 1, 2, 0, PyBool.npbool false⟩,
    weekly_actual := [] }

/-- A concrete analysis result whose z-test took the degenerate branch
(`se = 0`): its `significant` entry is a genuine Python `bool`, which
`json.dump` writes as a JSON boolean. -/
def exDegResults : AnalysisResults :=
  { bernoulli := ⟨none, none, none, none, none, none⟩,
    conditional := ⟨none, none, none, 0, 0, 0, 0, 0⟩,
    binomial_weekly := ⟨periodW, 7, none, none, none, none, none, none,
      none⟩,
    statistical_tests :=
      ⟨testTypeMsg, 0, 0, 0, 0, 0, 0, 1, PyBool.pybool false⟩,
    weekly_actual := [] }

/-! ## Helper lemmas -/

/-- Decidable equality of embedded Python outcomes, by constructor. -/
instance {ε α : Type} [DecidableEq ε] [DecidableEq α] :
    DecidableEq (Except ε α)
  | Except.error a, Except.error b => decidable_of_iff (a = b) (by simp)
  | Except.error _, Except.ok _ => Decidable.isFalse (by simp)
  | Except.ok _, Except.error _ => Decidable.isFalse (by simp)
  | Except.ok a, Except.ok b => decidable_of_iff (a = b) (by simp)

/-- Reduction of `Except` pure. -/
@[simp] lemma pyPure {α : Type} (a : α) :
    (pure a : Except PyError α) = Except.ok a := rfl

/-- Reduction of `Except` bind on a success value. -/
@[simp] lemma pyBind_ok {α β : Type} (a : α) (f : α → Except PyError β) :
    (Except.ok a : Except PyError α) >>= f = f a := rfl

/-- Reduction of `Except` bind on an error value. -/
@[simp] lemma pyBind_error {α β : Type} (e : PyError)
    (f : α → Except PyError β) :
    (Except.error e : Except PyError α) >>= f = Except.error e := rfl

/-- The z-test body raises exactly when one partition is empty and the other
is not: under the `(n1 + n2) > 0` guard, `1/n1` or `1/n2` divides by zero. -/
lemma testsOnPartitions_error_iff (sq cdf : ℚ → ℚ)
    (high_vax low_vax : List Record) :
    testsOnPartitions sq cdf high_vax low_vax =
        Except.error PyError.zeroDivisionError ↔
      (high_vax = [] ∧ low_vax ≠ []) ∨ (high_vax ≠ [] ∧ low_vax = []) := by
  cases high_vax <;> cases low_vax <;>
    simp [testsOnPartitions, pydiv, pyBind_ok, pyBind_error]

/-- On two empty partitions the z-test body takes every degenerate branch:
`se = 0`, hence `z = 0`, `p = 1`. -/
lemma testsOnPartitions_nil_nil (sq cdf : ℚ → ℚ) :
    ∃ res, testsOnPartitions sq cdf [] [] = Except.ok res ∧
      res.z_statistic = 0 ∧ res.p_value = 1 := by
  refine ⟨_, rfl, ?_, ?_⟩ <;> norm_num

/-- The two partition filters of the estimators split every record list. -/
lemma length_filter_partition (df : List Record) (th : ℚ) :
    (df.filter fun r => decide (th ≤ r.vaccination_rate)).length +
      (df.filter fun r => decide (r.vaccination_rate < th)).length =
      df.length := by
  induction df with
  | nil => rfl
  | cons r l ih =>
    by_cases h : th ≤ r.vaccination_rate
    · have h2 : ¬ r.vaccination_rate < th := not_lt.mpr h
      simp only [List.filter_cons, decide_eq_true_eq, h, h2, if_true,
        if_false, List.length_cons]
      omega
    · have h2 : r.vaccination_rate < th := not_le.mp h
      simp only [List.filter_cons, decide_eq_true_eq, h, h2, if_true,
        if_false, List.length_cons]
      omega

/-- The mean of a non-empty list of values in `[0, 1]` is defined and lies
in `[0, 1]`. -/
lemma pdMean_bounds (xs : List ℚ) (hne : xs ≠ [])
    (h : ∀ x ∈ xs, 0 ≤ x ∧ x ≤ 1) :
    ∃ q, pdMean xs = some q ∧ 0 ≤ q ∧ q ≤ 1 := by
  cases xs with
  | nil => exact absurd rfl hne
  | cons a l =>
    have hlen : (0 : ℚ) < ((a :: l).length : ℚ) := by
      exact_mod_cast List.length_pos.mpr (List.cons_ne_nil a l)
    refine ⟨(a :: l).sum / (a :: l).length, rfl, ?_, ?_⟩
    · exact div_nonneg (List.sum_nonneg fun x hx => (h x hx).1) hlen.le
    · rw [div_le_one hlen]
      have := List.sum_le_card_nsmul (a :: l) 1 fun x hx => (h x hx).2
      simpa using this

/-! ## Claims -/

/-- C1 (counterexample): the claim asserts that with exactly one partition
empty `perform_statistical_tests` returns `z = 0`, `p = 1` rather than
raising; on the single record with `vaccination_rate = 2` and threshold 1
the low partition is empty and the high one is not, and the function raises
`ZeroDivisionError` from the unguarded `1/n2`. -/
theorem c1_one_empty_partition_raises :
    perform_statistical_tests id id [⟨0, 1, 2⟩] 1 =
      Except.error PyError.zeroDivisionError := by
  decide

/-- C1 (amended): the degenerate policy `z = 0`, `p = 1` applies only when
BOTH partitions are empty, i.e. on an empty record sequence (the source
guard is `(n1 + n2) > 0`); when exactly one partition is empty and the other
is non-empty, the unguarded Python divisions `1/n1`, `1/n2` raise
`ZeroDivisionError` instead. -/
theorem c1_degenerate_z_test_policy (sq cdf : ℚ → ℚ) (df : List Record)
    (th : ℚ) :
    (∃ res, perform_statistical_tests sq cdf [] th = Except.ok res ∧
        res.z_statistic = 0 ∧ res.p_value = 1) ∧
    (((df.filter fun r => decide (th ≤ r.vaccination_rate)) = [] ∧
        (df.filter fun r => decide (r.vaccination_rate < th)) ≠ []) ∨
      ((df.filter fun r => decide (th ≤ r.vaccination_rate)) ≠ [] ∧
        (df.filter fun r => decide (r.vaccination_rate < th)) = []) →
      perform_statistical_tests sq cdf df th =
        Except.error PyError.zeroDivisionError) := by
  constructor
  · exact testsOnPartitions_nil_nil sq cdf
  · intro h
    exact (testsOnPartitions_error_iff sq cdf _ _).mpr h

/-- C1 (witness): the amended theorem applied at a concrete input — the
empty table yields `z = 0`, `p = 1`, and the single low-vaccination record
(high partition empty at threshold 1) makes the function raise. -/
theorem c1_degenerate_z_test_policy_witness :
    (∃ res, perform_statistical_tests id id [] 1 = Except.ok res ∧
        res.z_statistic = 0 ∧ res.p_value = 1) ∧
    perform_statistical_tests id id [⟨0, 1, 0⟩] 1 =
      Except.error PyError.zeroDivisionError := by
  have h := c1_degenerate_z_test_policy id id [⟨0, 1, 0⟩] 1
  exact ⟨h.1, h.2 (by decide)⟩

/-- C2 (counterexample): the claim asserts every estimator is
exception-free on every input; on two high-vaccination records (threshold 1,
low partition empty) `perform_statistical_tests` raises `ZeroDivisionError`
from the unguarded `1/n2` inside the pooled standard-error expression. -/
theorem c2_unguarded_division_raises :
    perform_statistical_tests id id [⟨0, 1, 2⟩, ⟨1, 0, 3⟩] 1 =
      Except.error PyError.zeroDivisionError := by
  decide

/-- C2 (amended): the three `calculate_*` estimators are embedded as total
functions (their divisions are all guarded, and numpy float divisions do not
raise); `perform_statistical_tests` however raises `ZeroDivisionError`
exactly when one of its two partitions is empty and the other is not — the
`1/n1 + 1/n2` term is guarded only by `(n1 + n2) > 0`.  On all other inputs
it returns normally. -/
theorem c2_exception_characterization (sq cdf : ℚ → ℚ) (df : List Record)
    (th : ℚ) :
    perform_statistical_tests sq cdf df th =
        Except.error PyError.zeroDivisionError ↔
      ((df.filter fun r => decide (th ≤ r.vaccination_rate)) = [] ∧
        (df.filter fun r => decide (r.vaccination_rate < th)) ≠ []) ∨
      ((df.filter fun r => decide (th ≤ r.vaccination_rate)) ≠ [] ∧
        (df.filter fun r => decide (r.vaccination_rate < th)) = []) :=
  testsOnPartitions_error_iff sq cdf _ _

/-- C6 (counterexample): the claim asserts that with threshold 1 every
record falls in the low partition; a record with `vaccination_rate` exactly
1 satisfies the inclusive `>=` boundary and falls in the high partition. -/
theorem c6_boundary_record_goes_high :
    (calculate_conditional_probabilities id [⟨0, 0, 1⟩] 1).n_high = 1 ∧
    (calculate_conditional_probabilities id [⟨0, 0, 1⟩] 1).n_low = 0 := by
  decide

/-- C6 (amended): the partition sizes of
`calculate_conditional_probabilities` always sum to the record count; with
threshold 0 every record with non-negative `vaccination_rate` falls in the
high partition; with threshold 1 every record with `vaccination_rate < 1`
falls in the low partition; and a record whose rate equals the threshold
falls in the high partition (the boundary comparison is the inclusive
`>=`). -/
theorem c6_partition_accounting (sq : ℚ → ℚ) (df : List Record) (th : ℚ) :
    ((calculate_conditional_probabilities sq df th).n_high +
        (calculate_conditional_probabilities sq df th).n_low = df.length) ∧
    ((∀ r ∈ df, 0 ≤ r.vaccination_rate) →
        (calculate_conditional_probabilities sq df 0).n_high = df.length) ∧
    ((∀ r ∈ df, r.vaccination_rate < 1) →
        (calculate_conditional_probabilities sq df 1).n_low = df.length) ∧
    ((∀ r ∈ df, r.vaccination_rate = th) →
        (calculate_conditional_probabilities sq df th).n_high = df.length) := by
  refine ⟨length_filter_partition df th, ?_, ?_, ?_⟩
  · intro h
    show (df.filter fun r => decide ((0 : ℚ) ≤ r.vaccination_rate)).length = _
    rw [List.filter_eq_self.mpr fun r hr => decide_eq_true (h r hr)]
  · intro h
    show (df.filter fun r => decide (r.vaccination_rate < 1)).length = _
    rw [List.filter_eq_self.mpr fun r hr => decide_eq_true (h r hr)]
  · intro h
    show (df.filter fun r => decide (th ≤ r.vaccination_rate)).length = _
    rw [List.filter_eq_self.mpr fun r hr => decide_eq_true (le_of_eq (h r hr).symm)]

/-- C6 (witness): the amended theorem applied to the single record with
`vaccination_rate = 0` at threshold 0. -/
theorem c6_partition_accounting_witness :
    ((calculate_conditional_probabilities id [⟨0, 1, 0⟩] 0).n_high +
        (calculate_conditional_probabilities id [⟨0, 1, 0⟩] 0).n_low = 1) ∧
    (calculate_conditional_probabilities id [⟨0, 1, 0⟩] 0).n_high = 1 ∧
    (calculate_conditional_probabilities id [⟨0, 1, 0⟩] 1).n_low = 1 ∧
    (calculate_conditional_probabilities id [⟨0, 1, 0⟩] 0).n_high = 1 := by
  have h := c6_partition_accounting id [⟨0, 1, 0⟩] 0
  exact ⟨h.1, h.2.1 (by decide), h.2.2.1 (by decide), h.2.2.2 (by decide)⟩

/-- Forward-filling a column does not change its length. -/
lemma ffillAux_length (acc : Option ℚ) (xs : List (Option ℚ)) :
    (ffillAux acc xs).length = xs.length := by
  induction xs generalizing acc with
  | nil => rfl
  | cons a l ih => cases a <;> simp [ffillAux, ih]

/-- C3 (counterexample): the claim asserts that cleaning reindexes to a
complete daily calendar, so that rows dated 2021-01-01 (day 18628) and
2021-01-03 (day 18630) become 3 consecutive daily rows; `clean_owid_data`
never reindexes, and the cleaned table keeps exactly the 2 observed rows. -/
theorem c3_gap_not_reindexed :
    (clean_owid_data [⟨18628, some 100, some 2, some 10⟩,
        ⟨18630, none, none, some 10⟩]).length = 2 ∧
    ¬ (clean_owid_data [⟨18628, some 100, some 2, some 10⟩,
        ⟨18630, none, none, some 10⟩]).length = 3 := by
  decide

/-- C3 (amended): `clean_owid_data` operates row-wise on the observed rows —
the cleaned table has exactly one row per input row (no calendar
completion).  Within the observed rows, missing `new_cases` values are
filled with zero and `people_vaccinated` (hence `vaccination_rate`) is
forward-filled: on the two-row example dated 2021-01-01 and 2021-01-03 the
output has 2 rows, the 2021-01-03 row getting `new_cases = 0` and the
vaccination level forward-filled from 2021-01-01. -/
theorem c3_cleaning_preserves_rows (rows : List OwidRawRow) :
    (clean_owid_data rows).length = rows.length ∧
    (clean_owid_data [⟨18628, some 100, some 2, some 10⟩,
        ⟨18630, none, none, some 10⟩]).map OwidCleanRow.date =
      [18628, 18630] ∧
    (clean_owid_data [⟨18628, some 100, some 2, some 10⟩,
        ⟨18630, none, none, some 10⟩]).map OwidCleanRow.new_cases =
      [100, 0] ∧
    (clean_owid_data [⟨18628, some 100, some 2, some 10⟩,
        ⟨18630, none, none, some 10⟩]).map OwidCleanRow.people_vaccinated =
      [some 2, some 2] ∧
    (clean_owid_data [⟨18628, some 100, some 2, some 10⟩,
        ⟨18630, none, none, some 10⟩]).map OwidCleanRow.vaccination_rate =
      [1 / 5, 1 / 5] ∧
    (clean_owid_data [⟨18628, some 100, some 2, some 10⟩,
        ⟨18630, none, none, some 10⟩]).map OwidCleanRow.I = [1, 0] := by
  refine ⟨?_, by decide, by decide, by decide, ?_, by decide⟩
  · rw [clean_owid_data, List.length_zipWith, ffillAux_length,
      List.length_map, min_self]
  · norm_num [clean_owid_data, ffillAux, colDiv]

/-- C5 (confirmed): `main` passes the three extracted tables positionally to
`process_all_data` together with the keyword arguments `country` and
`save_processed`; since the third parameter of `process_all_data` is
`country`, the keyword is bound twice and Python raises `TypeError`, so the
pipeline fails at the processing stage and the statistical-analysis stage is
never reached (the intended two-positional call would have bound fine). -/
theorem c5_process_call_binds_country_twice :
    bindCall processAllDataParams 3 ["country", "save_processed"] =
      Except.error (PyError.typeError (multipleValuesMsg "country")) ∧
    bindCall processAllDataParams 2 ["country", "save_processed"] =
      Except.ok () ∧
    mainPipeline =
      Except.error (PyError.typeError (multipleValuesMsg "country")) := by
  refine ⟨?_, ?_, ?_⟩ <;> decide

/-- C7 (counterexample): the claim asserts `0 <= p_V <= 1` for every
non-empty record sequence, the rates "having been clipped to [0,1] during
cleaning"; `clean_owid_data` never clips, and on a row with
`people_vaccinated = 5` and `population = 1` it produces
`vaccination_rate = 5`, so the Bernoulli estimator reports `p_V = 5 > 1`. -/
theorem c7_no_clipping_p_V_exceeds_one :
    (calculate_bernoulli_parameters id
        ((clean_owid_data [⟨0, some 3, some 5, some 1⟩]).map toRecord)).p_V =
      some 5 ∧
    ¬ (5 : ℚ) ≤ 1 := by
  refine ⟨?_, by norm_num⟩
  norm_num [calculate_bernoulli_parameters, clean_owid_data, ffillAux,
    colDiv, toRecord, pdMean]

/-- C7 (amended): for every non-empty record sequence whose `I` column is
binary, `0 <= p_I <= 1`; and `0 <= p_V <= 1` holds provided every
`vaccination_rate` lies in `[0, 1]` — the cleaning step computes the rate as
`people_vaccinated / population` without clipping, so this bound is
conditional on the data, not enforced by the code. -/
theorem c7_bernoulli_parameters_in_unit_interval (sq : ℚ → ℚ)
    (df : List Record) (hne : df ≠ []) :
    ((∀ r ∈ df, r.I = 0 ∨ r.I = 1) →
      ∃ q, (calculate_bernoulli_parameters sq df).p_I = some q ∧
        0 ≤ q ∧ q ≤ 1) ∧
    ((∀ r ∈ df, 0 ≤ r.vaccination_rate ∧ r.vaccination_rate ≤ 1) →
      ∃ q, (calculate_bernoulli_parameters sq df).p_V = some q ∧
        0 ≤ q ∧ q ≤ 1) := by
  constructor
  · intro h
    apply pdMean_bounds
    · simpa using hne
    · intro x hx
      obtain ⟨r, hr, rfl⟩ := List.mem_map.mp hx
      rcases h r hr with h01 | h01 <;> rw [h01] <;> norm_num
  · intro h
    apply pdMean_bounds
    · simpa using hne
    · intro x hx
      obtain ⟨r, hr, rfl⟩ := List.mem_map.mp hx
      exact h r hr

/-- C7 (witness): the amended theorem applied to the single record with
`I = 1` and `vaccination_rate = 1`. -/
theorem c7_bernoulli_parameters_witness :
    (∃ q, (calculate_bernoulli_parameters id [⟨0, 1, 1⟩]).p_I = some q ∧
      0 ≤ q ∧ q ≤ 1) ∧
    (∃ q, (calculate_bernoulli_parameters id [⟨0, 1, 1⟩]).p_V = some q ∧
      0 ≤ q ∧ q ≤ 1) := by
  have h := c7_bernoulli_parameters_in_unit_interval id [⟨0, 1, 1⟩]
    (by decide)
  exact ⟨h.1 (by decide), h.2 (by decide)⟩

/-- Swapping the operands of an element-wise operation between a list and
its own tail-extension. -/
lemma zipWith_cons_swap {α : Type} (f : α → α → α) (x : α) (l : List α) :
    List.zipWith (fun a b => f a b) l (x :: l) =
      List.zipWith (fun b a => f a b) (x :: l) l := by
  induction l generalizing x with
  | nil => rfl
  | cons y m ih => simpa using ih y

/-- C8 (confirmed): the cumulative-to-incremental conversion of
`prepare_chart_data` equals the spec's description — the first increment is
the raw first cumulative value, later increments are day-over-day
differences, negatives are clamped to zero — and on the cumulative series
`[10, 10, 15, 12]` it yields `[10, 0, 5, 0]`. -/
theorem c8_cumulative_to_incremental :
    (∀ xs : List ℚ, nytNewCases xs = specIncrements xs) ∧
    nytNewCases [10, 10, 15, 12] = [10, 0, 5, 0] := by
  have hgen : ∀ xs : List ℚ, nytNewCases xs = specIncrements xs := by
    intro xs
    cases xs with
    | nil => rfl
    | cons x rest =>
      show ((pdDiff (x :: rest)).map fun o => o.getD x).map
          (fun v => max v 0) = _
      rw [pdDiff, List.map_cons, List.map_cons, List.map_zipWith,
        List.map_zipWith]
      show max x 0 :: List.zipWith (fun a b => max (a - b) 0) rest (x :: rest)
          = _
      rw [zipWith_cons_swap (fun a b => max (a - b) 0) x rest]
      rfl
  refine ⟨hgen, ?_⟩
  rw [hgen]
  norm_num [specIncrements]

/-- C10 (confirmed): every row of the inner join built by `merge_datasets`
has its canonical infection indicator `I` equal to the OWID-derived
`I_owid`, which is the `I` of the joined OWID row; the WHO indicator is
carried along as `I_who` but never used as the canonical `I`. -/
theorem c10_canonical_I_from_owid (owid : List OwidCleanRow)
    (who : List WhoCleanRow) (m : MergedRow)
    (hm : m ∈ merge_datasets owid who) :
    m.I = m.I_owid ∧ ∃ o ∈ owid, o.date = m.date ∧ o.I = m.I_owid := by
  obtain ⟨o, ho, hmem⟩ := List.mem_flatMap.mp hm
  obtain ⟨w, hw, rfl⟩ := List.mem_map.mp hmem
  exact ⟨rfl, o, ho, rfl, rfl⟩

/-- C10 (witness): the theorem applied to a concrete one-row join. -/
theorem c10_canonical_I_from_owid_witness :
    (⟨5, 0, 1, 3, none, 0, 1⟩ : MergedRow).I =
        (⟨5, 0, 1, 3, none, 0, 1⟩ : MergedRow).I_owid ∧
    ∃ o ∈ [(⟨5, 3, none, 0, 1⟩ : OwidCleanRow)],
      o.date = (⟨5, 0, 1, 3, none, 0, 1⟩ : MergedRow).date ∧
      o.I = (⟨5, 0, 1, 3, none, 0, 1⟩ : MergedRow).I_owid :=
  c10_canonical_I_from_owid [⟨5, 3, none, 0, 1⟩] [⟨5, some 2, 0⟩]
    ⟨5, 0, 1, 3, none, 0, 1⟩ (by decide)

/-- C4 (counterexample): the claim asserts the analysis result contains a
`correlation_analysis` sub-section with a Pearson correlation; the
dictionary `run_complete_analysis` returns has no such key (the HTML
generator reads it with an empty-dict default). -/
theorem c4_no_correlation_analysis_section :
    ¬ "correlation_analysis" ∈ analysisResultKeys := by
  decide

/-- C4 (amended): the analysis result returned by `run_complete_analysis`
contains exactly the five sub-sections `bernoulli`, `conditional`,
`binomial_weekly`, `statistical_tests` and the `weekly_actual` series — the
outputs of the four estimators at the default threshold 0.5 and weekly
period — and no `correlation_analysis` sub-section: no Pearson correlation
is computed in the analysis module. -/
theorem c4_analysis_result_sections (sq cdf : ℚ → ℚ) (df : List Record)
    (res : AnalysisResults)
    (h : run_complete_analysis sq cdf df = Except.ok res) :
    res.bernoulli = calculate_bernoulli_parameters sq df ∧
    res.conditional = calculate_conditional_probabilities sq df (1 / 2) ∧
    res.binomial_weekly = (calculate_binomial_parameters df periodW).1 ∧
    perform_statistical_tests sq cdf df (1 / 2) =
      Except.ok res.statistical_tests ∧
    res.weekly_actual = (calculate_binomial_parameters df periodW).2 ∧
    analysisResultKeys = ["bernoulli", "conditional", "binomial_weekly",
      "statistical_tests", "weekly_actual"] ∧
    ¬ "correlation_analysis" ∈ analysisResultKeys := by
  unfold run_complete_analysis at h
  cases hp : perform_statistical_tests sq cdf df (1 / 2) with
  | error e =>
    rw [hp] at h
    simp at h
  | ok tr =>
    rw [hp] at h
    simp only [pyBind_ok, pyPure, Except.ok.injEq] at h
    subst h
    exact ⟨rfl, rfl, rfl, rfl, rfl, rfl, by decide⟩

/-- C4 (witness): the amended theorem applied to the empty record sequence,
on which the statistical test takes its degenerate branch and the analysis
returns normally. -/
theorem c4_analysis_result_sections_witness :
    ∃ res, run_complete_analysis id id [] = Except.ok res ∧
      res.bernoulli = calculate_bernoulli_parameters id [] ∧
      res.conditional = calculate_conditional_probabilities id [] (1 / 2) ∧
      res.binomial_weekly = (calculate_binomial_parameters [] periodW).1 ∧
      res.weekly_actual = (calculate_binomial_parameters [] periodW).2 ∧
      ¬ "correlation_analysis" ∈ analysisResultKeys := by
  obtain ⟨r0, h0, _, _⟩ := testsOnPartitions_nil_nil id id
  have hok : run_complete_analysis id id [] = Except.ok
      { bernoulli := calculate_bernoulli_parameters id [],
        conditional := calculate_conditional_probabilities id [] (1 / 2),
        binomial_weekly := (calculate_binomial_parameters [] periodW).1,
        statistical_tests := r0,
        weekly_actual := (calculate_binomial_parameters [] periodW).2 } := by
    unfold run_complete_analysis
    rw [show perform_statistical_tests id id [] (1 / 2) = Except.ok r0
      from h0]
    rfl
  have h := c4_analysis_result_sections id id [] _ hok
  exact ⟨_, hok, h.1, h.2.1, h.2.2.1, h.2.2.2.2.1, h.2.2.2.2.2.2⟩

/-- Reading back a possibly-NaN float recovers it. -/
@[simp] lemma asOptNum_optNum (o : Option ℚ) : asOptNum (optNum o) = some o := by
  cases o <;> rfl

/-- Round trip of the `bernoulli` sub-dictionary. -/
lemma decodeBernoulli_encode (b : BernoulliResults) :
    decodeBernoulli (encodeBernoulli b) = some b := by
  rcases b with ⟨p1, p2, p3, p4, p5, p6⟩
  cases p1 <;> cases p2 <;> cases p3 <;> cases p4 <;> cases p5 <;> cases p6 <;>
    rfl

/-- Round trip of the `conditional` sub-dictionary: every scalar comes back
(the integer sample sizes as JSON numbers). -/
lemma decodeConditional_encode (c : CondResults) :
    decodeConditional (encodeConditional c) =
      some ⟨c.p_I_high, c.p_I_low, c.difference, c.n_high, c.n_low,
            c.se_high, c.se_low, c.threshold⟩ := by
  rcases c with ⟨p1, p2, p3, n1, n2, s1, s2, th⟩
  cases p1 <;> cases p2 <;> cases p3 <;> rfl

/-- Round trip of the `binomial_weekly` sub-dictionary. -/
lemma decodeBinomial_encode (b : BinomResults) :
    decodeBinomial (encodeBinomial b) =
      some ⟨b.period, b.n_trials, b.p_I, b.expected_mean,
            b.expected_variance, b.actual_mean, b.actual_variance,
            b.mean_difference, b.variance_difference⟩ := by
  rcases b with ⟨pe, nt, p1, p2, p3, p4, p5, p6, p7⟩
  cases p1 <;> cases p2 <;> cases p3 <;> cases p4 <;> cases p5 <;> cases p6 <;>
    cases p7 <;> rfl

/-- Round trip of the `statistical_tests` sub-dictionary: the flag comes
back as a boolean or a string according to the branch that produced it. -/
lemma decodeTests_encode (t : TestResults) :
    decodeTests (encodeTests t) =
      some ⟨t.test_type, t.n_high, t.n_low, t.p_high, t.p_low, t.difference,
            t.z_statistic, t.p_value, sigRead t.significant⟩ := by
  rcases t with ⟨t1, t2, t3, t4, t5, t6, t7, t8, t9⟩
  cases t9 <;> rfl

/-- Reading back a string array written field-wise. -/
lemma strList_map {α : Type} (f : α → String) (l : List α) :
    strList (l.map fun a => Json.str (f a)) = some (l.map f) := by
  induction l with
  | nil => rfl
  | cons a m ih => simp [strList, asStr, ih]

/-- Reading back a number array written field-wise. -/
lemma numList_map {α : Type} (f : α → ℚ) (l : List α) :
    numList (l.map fun a => Json.num (f a)) = some (l.map f) := by
  induction l with
  | nil => rfl
  | cons a m ih => simp [numList, asNum, ih]

/-- C9 (counterexample): the claim asserts the round trip reproduces every
scalar value exactly; on a result whose z-test took the normal branch the
`significant` flag is the numpy boolean, which `json.dump` writes via
`default=str` as the string `"False"` — the reader gets back a string, not
the original boolean. -/
theorem c9_significant_flag_not_reproduced :
    (decodeReport (generate_json_report (fun _ => "d") exNormResults)).map
        (fun rb => rb.statistical_tests.significant) =
      some (SigReadBack.asStr "False") ∧
    ∀ b : Bool, SigReadBack.asStr "False" ≠ SigReadBack.asBool b := by
  constructor
  · decide
  · intro b h
    cases h

/-- C9 (amended): serializing an `AnalysisResults` to the JSON interchange
format (dates as strings via `fmt`, the weekly series as parallel
index/value arrays) and reading it back reproduces every numeric and string
scalar exactly (integer counts come back as equal JSON numbers) and both
weekly arrays with length equal to the original series; the `significant`
flag round-trips exactly only when the degenerate z-test branch produced it
as a Python `bool` (written as a JSON boolean), while the normal branch's
numpy boolean comes back as the `default=str` string `"True"`/`"False"`
rather than a boolean. -/
theorem c9_json_round_trip (fmt : ℤ → String) (r : AnalysisResults) :
    ∃ rb, decodeReport (generate_json_report fmt r) = some rb ∧
      rb.bernoulli = r.bernoulli ∧
      rb.conditional = ⟨r.conditional.p_I_high, r.conditional.p_I_low,
        r.conditional.difference, r.conditional.n_high, r.conditional.n_low,
        r.conditional.se_high, r.conditional.se_low,
        r.conditional.threshold⟩ ∧
      rb.binomial_weekly = ⟨r.binomial_weekly.period,
        r.binomial_weekly.n_trials, r.binomial_weekly.p_I,
        r.binomial_weekly.expected_mean, r.binomial_weekly.expected_variance,
        r.binomial_weekly.actual_mean, r.binomial_weekly.actual_variance,
        r.binomial_weekly.mean_difference,
        r.binomial_weekly.variance_difference⟩ ∧
      rb.statistical_tests = ⟨r.statistical_tests.test_type,
        r.statistical_tests.n_high, r.statistical_tests.n_low,
        r.statistical_tests.p_high, r.statistical_tests.p_low,
        r.statistical_tests.difference, r.statistical_tests.z_statistic,
        r.statistical_tests.p_value,
        sigRead r.statistical_tests.significant⟩ ∧
      rb.weekly_index = r.weekly_actual.map (fun p => fmt p.1) ∧
      rb.weekly_values = r.weekly_actual.map Prod.snd ∧
      rb.weekly_index.length = r.weekly_actual.length ∧
      rb.weekly_values.length = r.weekly_actual.length ∧
      (∀ b, r.statistical_tests.significant = PyBool.pybool b →
        rb.statistical_tests.significant = SigReadBack.asBool b) ∧
      (∀ b, r.statistical_tests.significant = PyBool.npbool b →
        rb.statistical_tests.significant =
          SigReadBack.asStr (pyBoolStr b)) := by
  refine ⟨{ bernoulli := r.bernoulli,
            conditional := ⟨r.conditional.p_I_high, r.conditional.p_I_low,
              r.conditional.difference, r.conditional.n_high,
              r.conditional.n_low, r.conditional.se_high,
              r.conditional.se_low, r.conditional.threshold⟩,
            binomial_weekly := ⟨r.binomial_weekly.period,
              r.binomial_weekly.n_trials, r.binomial_weekly.p_I,
              r.binomial_weekly.expected_mean,
              r.binomial_weekly.expected_variance,
              r.binomial_weekly.actual_mean,
              r.binomial_weekly.actual_variance,
              r.binomial_weekly.mean_difference,
              r.binomial_weekly.variance_difference⟩,
            statistical_tests := ⟨r.statistical_tests.test_type,
              r.statistical_tests.n_high, r.statistical_tests.n_low,
              r.statistical_tests.p_high, r.statistical_tests.p_low,
              r.statistical_tests.difference,
              r.statistical_tests.z_statistic, r.statistical_tests.p_value,
              sigRead r.statistical_tests.significant⟩,
            weekly_index := r.weekly_actual.map fun p => fmt p.1,
            weekly_values := r.weekly_actual.map Prod.snd },
    ?_, rfl, rfl, rfl, rfl, rfl, rfl, by simp, by simp, ?_, ?_⟩
  · simp [decodeReport, generate_json_report, jGet, jGet.lookupStr,
      decodeBernoulli_encode, decodeConditional_encode,
      decodeBinomial_encode, decodeTests_encode, asStrArr, asNumArr,
      strList_map, numList_map]
  · intro b hb
    show sigRead r.statistical_tests.significant = _
    rw [hb]
    rfl
  · intro b hb
    show sigRead r.statistical_tests.significant = _
    rw [hb]
    rfl

/-- C9 (witness): the amended theorem applied to the two concrete results —
the degenerate-branch flag (a Python `bool`) round-trips to a boolean, the
normal-branch flag (numpy) to the fallback string. -/
theorem c9_json_round_trip_witness :
    (∃ rb, decodeReport (generate_json_report (fun _ => "d") exDegResults) =
        some rb ∧
      rb.statistical_tests.significant = SigReadBack.asBool false) ∧
    (∃ rb, decodeReport (generate_json_report (fun _ => "d") exNormResults) =
        some rb ∧
      rb.statistical_tests.significant =
        SigReadBack.asStr (pyBoolStr false)) := by
  constructor
  · obtain ⟨rb, hdec, _, _, _, _, _, _, _, _, hdeg, _⟩ :=
      c9_json_round_trip (fun _ => "d") exDegResults
    exact ⟨rb, hdec, hdeg false rfl⟩
  · obtain ⟨rb, hdec, _, _, _, _, _, _, _, _, _, hnorm⟩ :=
      c9_json_round_trip (fun _ => "d") exNormResults
    exact ⟨rb, hdec, hnorm false rfl⟩

end CovidStats
